import Mathlib

/-!
Verification of the error-classification and dispatch mechanism of the
`errors` package (`src/errors/handler.go`).

The embedding models Go error values as an inductive `GoErr`:
a sentinel error created by `errors.New` (its `id` models pointer identity,
since `errors.New` returns a fresh `*errorString` and sentinel comparison is
interface equality), a custom typed error value (its `tid` names the concrete
Go type, `payload` its structured field, e.g. a code), and a wrapping error as
produced by `fmt.Errorf` with `%w` (again with an identity `id` and the fully
formatted message, holding the wrapped inner error).

Go's dynamic (reflection) types are modelled by `GoType`: every sentinel has
the concrete type `*errors.errorString`, every wrapper `*fmt.wrapError`, and
a typed error `typed tid _ _` has the concrete custom type `custom tid`.

`errors.Is` and `errors.As` are embedded as `errorsIs` and `errorsAs`: both
walk the unwrap chain; `errorsIs` compares each chain element to the target
by equality (interface equality in Go, structural equality with identity ids
here); `errorsAs` looks for the first chain element whose dynamic type equals
the target type (none of the modelled errors defines its own `Is`/`As`
method, matching the plain errors used with this package).

The `any`-typed `ErrorMatcher.ErrorType` field is modelled by `GoValue`:
a nil interface, a value implementing `error` (a `GoErr`), or a non-error
value. A Go panic is modelled as `Except.error` with the panic message, so
every dispatch function returns `Except String _`.
-/

set_option maxRecDepth 4096

namespace GoUtils

/-- A Go error value, with explicit identity ids standing for pointer
identity of `*errorString` / `*fmt.wrapError` allocations. -/
inductive GoErr where
  | sentinel (id : Nat) (msg : String)
  | typed (tid : Nat) (payload : Nat) (msg : String)
  | wrap (id : Nat) (msg : String) (inner : GoErr)
deriving DecidableEq, Repr

/-- The dynamic (reflection) type of a Go error value. -/
inductive GoType where
  | errorString
  | wrapError
  | custom (tid : Nat)
deriving DecidableEq, Repr

/-- `reflect.TypeOf` on a (non-nil) error value. -/
def typeOf : GoErr → GoType
  | .sentinel _ _ => .errorString
  | .typed tid _ _ => .custom tid
  | .wrap _ _ _ => .wrapError

/-- The `%T` rendering of an error's dynamic type. -/
def typeName : GoErr → String
  | .sentinel _ _ => "*errors.errorString"
  | .typed tid _ _ => "customType" ++ toString tid
  | .wrap _ _ _ => "*fmt.wrapError"

/-- The `Error()` string of an error value (a wrapper stores its fully
formatted message, as `fmt.Errorf` does). -/
def errMsg : GoErr → String
  | .sentinel _ m => m
  | .typed _ _ m => m
  | .wrap _ m _ => m

/-- The unwrap chain of an error, outermost first: the traversal performed
by `errors.Is` / `errors.As` via repeated `Unwrap()`. -/
def chain : GoErr → List GoErr
  | .wrap i m inner => .wrap i m inner :: chain inner
  | e => [e]

/-- `errors.Is err target`: walk the chain, comparing each element to the
target by (interface) equality. -/
def errorsIs : GoErr → GoErr → Bool
  | .wrap i m inner, target =>
      decide (GoErr.wrap i m inner = target) || errorsIs inner target
  | e, target => decide (e = target)

/-- `errors.As err (target of type T)`: walk the chain and return the first
element whose dynamic type is the target type. -/
def errorsAs : GoErr → GoType → Option GoErr
  | e@(.wrap _ _ inner), t =>
      if typeOf e = t then some e else errorsAs inner t
  | e, t => if typeOf e = t then some e else none

/-- A value of Go's `any` type as stored in `ErrorMatcher.ErrorType`:
a nil interface, a value implementing `error`, or a non-error value. -/
inductive GoValue where
  | nil
  | err (e : GoErr)
  | nonError (v : Nat)

/-- `ErrorHandler`: `func(error) error`. The argument and result may be
nil, hence `Option`. -/
def ErrorHandler := Option GoErr → Option GoErr

/-- `ErrorMatcher` holds the error type/value and its handler. -/
structure ErrorMatcher where
  ErrorType : GoValue
  Handler : ErrorHandler
  IsSentinel : Bool

/-- The loop body of `HandleError` over the matcher list, for a non-nil
error. Panics (modelled as `Except.error` with the Go panic message) are:
`reflect.New` on the nil type obtained from a nil `ErrorType` under the
non-sentinel branch, and `errors.As` on a target type that does not
implement `error`. -/
def handleLoop (err : GoErr) : List ErrorMatcher → Except String (Bool × Option GoErr)
  | [] => .ok (false, some err)
  | matcher :: rest =>
    if matcher.IsSentinel then
      match matcher.ErrorType with
      | .err sentinelErr =>
        if errorsIs err sentinelErr then .ok (true, matcher.Handler (some err))
        else handleLoop err rest
      | _ => handleLoop err rest
    else
      match matcher.ErrorType with
      | .nil => .error "reflect: New(nil)"
      | .nonError _ => .error "errors: *target must be interface or implement error"
      | .err w =>
        if (errorsAs err (typeOf w)).isSome then .ok (true, matcher.Handler (some err))
        else handleLoop err rest

/-- `HandleError` processes an error against a list of matchers and executes
the appropriate handler. -/
def HandleError (err : Option GoErr) (matchers : List ErrorMatcher) :
    Except String (Bool × Option GoErr) :=
  match err with
  | none => .ok (true, none)
  | some e => handleLoop e matchers

/-- `%T` on a possibly-nil error interface. -/
def typeNameOpt : Option GoErr → String
  | none => "<nil>"
  | some e => typeName e

/-- `%v` on a possibly-nil error interface. -/
def errMsgOpt : Option GoErr → String
  | none => "<nil>"
  | some e => errMsg e

/-- `HandleErrorOrDie`: returns the handler result if matched, otherwise
panics with `Unhandled error of type %T: %v` formatted from the returned
(original) error. -/
def HandleErrorOrDie (err : Option GoErr) (matchers : List ErrorMatcher) :
    Except String (Option GoErr) :=
  match HandleError err matchers with
  | .error s => .error s
  | .ok (ok, err2) =>
    if !ok then
      .error ("Unhandled error of type " ++ typeNameOpt err2 ++ ": " ++ errMsgOpt err2)
    else .ok err2

/-- `HandleErrorOrDefault`: returns the handler result if matched; otherwise
applies the default handler `dft` to the returned (original) error, or
returns nil when `dft` is nil. -/
def HandleErrorOrDefault (err : Option GoErr) (dft : Option ErrorHandler)
    (matchers : List ErrorMatcher) : Except String (Option GoErr) :=
  match HandleError err matchers with
  | .error s => .error s
  | .ok (ok, err2) =>
    if !ok then
      match dft with
      | none => .ok none
      | some d => .ok (d err2)
    else .ok err2

/-- `OnSentinelError` builds a sentinel matcher; a nil sentinel stores a nil
interface in the `any`-typed field. -/
def OnSentinelError (sentinelErr : Option GoErr) (handler : ErrorHandler) : ErrorMatcher :=
  { ErrorType :=
      match sentinelErr with
      | some s => .err s
      | none => .nil
    Handler := handler
    IsSentinel := true }

/-- `OnCustomError[T]` builds a typed matcher for the custom type `custom tid`:
it stores the zero value of `T` as type witness and adapts the typed handler:
extract a `T` from the chain with `errors.As`; on success call the handler
with the extracted value, otherwise return nil. -/
def OnCustomError (tid : Nat) (handler : GoErr → Option GoErr) : ErrorMatcher :=
  { ErrorType := .err (.typed tid 0 "")
    Handler := fun err =>
      match err with
      | none => none
      | some e =>
        match errorsAs e (.custom tid) with
        | some typedErr => handler typedErr
        | none => none
    IsSentinel := false }

/-- `var Handle = HandleError`. -/
def Handle := HandleError

/-- `var MustHandle = HandleErrorOrDie`. -/
def MustHandle := HandleErrorOrDie

/-- `var HandleOr = HandleErrorOrDefault`. -/
def HandleOr := HandleErrorOrDefault

/-- `var OnSentinel = OnSentinelError`. -/
def OnSentinel := OnSentinelError

/-- `OnType[T]` forwards to `OnCustomError`. -/
def OnType (tid : Nat) (handler : GoErr → Option GoErr) : ErrorMatcher :=
  OnCustomError tid handler

/-- The matching predicate of section 4.2 of the spec: whether a matcher's
classification rule accepts an error (a malformed rule never matches). -/
def matcherMatches (m : ErrorMatcher) (e : GoErr) : Bool :=
  match m.IsSentinel, m.ErrorType with
  | true, .err s => errorsIs e s
  | false, .err w => (errorsAs e (typeOf w)).isSome
  | _, _ => false

/-- A matcher whose rule the dispatcher can test without panicking: every
sentinel matcher (a non-error rule is skipped by the failed type assertion),
and a non-sentinel matcher whose witness is an actual error value. -/
def wellFormed (m : ErrorMatcher) : Bool :=
  match m.IsSentinel, m.ErrorType with
  | true, _ => true
  | false, .err _ => true
  | false, _ => false

/-! ### Chain lemmas: `errorsIs` / `errorsAs` against the unwrap chain -/

/-- `List.find?` on a cons whose head satisfies the predicate, with the
predicate explicit. -/
theorem find_cons_pos {α : Type} (p : α → Bool) (a : α) (l : List α)
    (h : p a = true) : List.find? p (a :: l) = some a := by
  simp [List.find?_cons, h]

/-- `List.find?` on a cons whose head fails the predicate, with the
predicate explicit. -/
theorem find_cons_neg {α : Type} (p : α → Bool) (a : α) (l : List α)
    (h : p a = false) : List.find? p (a :: l) = List.find? p l := by
  simp [List.find?_cons, h]

/-- `errors.Is` succeeds exactly when the target occurs in the unwrap chain. -/
theorem errorsIs_iff_mem_chain (e S : GoErr) : errorsIs e S = true ↔ S ∈ chain e := by
  induction e with
  | sentinel i m =>
    simp [errorsIs, chain, eq_comm]
  | typed t p m =>
    simp [errorsIs, chain, eq_comm]
  | wrap i m inner ih =>
    simp only [errorsIs, chain, Bool.or_eq_true, decide_eq_true_eq, List.mem_cons, ih]
    constructor
    · rintro (h | h)
      · exact Or.inl h.symm
      · exact Or.inr h
    · rintro (h | h)
      · exact Or.inl h.symm
      · exact Or.inr h

/-- `errors.As` returns the first chain element of the target type. -/
theorem errorsAs_eq_find (e : GoErr) (t : GoType) :
    errorsAs e t = (chain e).find? (fun x => decide (typeOf x = t)) := by
  induction e with
  | sentinel i m =>
    by_cases h : typeOf (GoErr.sentinel i m) = t <;>
      simp [errorsAs, chain, List.find?, h]
  | typed tid p m =>
    by_cases h : typeOf (GoErr.typed tid p m) = t <;>
      simp [errorsAs, chain, List.find?, h]
  | wrap i m inner ih =>
    by_cases h : typeOf (GoErr.wrap i m inner) = t <;>
      simp [errorsAs, chain, List.find?, h, ih]

/-- `errors.As` succeeds exactly when the chain holds an element of the
target type. -/
theorem errorsAs_isSome_iff (e : GoErr) (t : GoType) :
    (errorsAs e t).isSome = true ↔ ∃ x ∈ chain e, typeOf x = t := by
  rw [errorsAs_eq_find]
  rcases hfind : (chain e).find? (fun x => decide (typeOf x = t)) with _ | x
  · rw [List.find?_eq_none] at hfind
    simpa using hfind
  · have hx := List.find?_some hfind
    have hmem := List.mem_of_find?_eq_some hfind
    simp only [decide_eq_true_eq] at hx
    simp only [Option.isSome_some, true_iff]
    exact ⟨x, hmem, hx⟩

/-- A successful `errors.As` extraction comes from the chain and has the
target type. -/
theorem errorsAs_some (e : GoErr) (t : GoType) (x : GoErr)
    (h : errorsAs e t = some x) : x ∈ chain e ∧ typeOf x = t := by
  rw [errorsAs_eq_find] at h
  have hx := List.find?_some h
  have hmem := List.mem_of_find?_eq_some h
  simp only [decide_eq_true_eq] at hx
  exact ⟨hmem, hx⟩

/-- Failed `errors.As` extraction means no chain element has the target
type. -/
theorem errorsAs_none_iff (e : GoErr) (t : GoType) :
    errorsAs e t = none ↔ ∀ x ∈ chain e, typeOf x ≠ t := by
  rw [errorsAs_eq_find, List.find?_eq_none]
  simp

/-! ### The dispatch loop, characterised by the first matching matcher -/

/-- A matcher whose predicate succeeds fires immediately with its handler
applied to the original (outermost) error. -/
theorem handleLoop_cons_match (e : GoErr) (m : ErrorMatcher) (rest : List ErrorMatcher)
    (hm : matcherMatches m e = true) :
    handleLoop e (m :: rest) = .ok (true, m.Handler (some e)) := by
  rcases m with ⟨et, h, s⟩
  cases s <;> cases et <;> simp_all [handleLoop, matcherMatches]

/-- A well-formed matcher whose predicate fails is skipped. -/
theorem handleLoop_cons_no_match (e : GoErr) (m : ErrorMatcher) (rest : List ErrorMatcher)
    (hwf : wellFormed m = true) (hm : matcherMatches m e = false) :
    handleLoop e (m :: rest) = handleLoop e rest := by
  rcases m with ⟨et, h, s⟩
  cases s <;> cases et <;> simp_all [handleLoop, matcherMatches, wellFormed]

/-- Over well-formed matchers, the loop returns the first matcher whose
predicate succeeds (with its handler applied to the original error), or
reports no match with the original error. -/
theorem handleLoop_eq_find (e : GoErr) (M : List ErrorMatcher)
    (hwf : ∀ m ∈ M, wellFormed m = true) :
    handleLoop e M =
      match M.find? (fun m => matcherMatches m e) with
      | some m => .ok (true, m.Handler (some e))
      | none => .ok (false, some e) := by
  induction M with
  | nil => simp [handleLoop, List.find?]
  | cons m rest ih =>
    by_cases hm : matcherMatches m e = true
    · rw [handleLoop_cons_match e m rest hm,
        find_cons_pos (fun m => matcherMatches m e) m rest hm]
    · have hm' : matcherMatches m e = false := by
        cases hv : matcherMatches m e
        · rfl
        · exact absurd hv hm
      rw [handleLoop_cons_no_match e m rest (hwf m (by simp)) hm',
        find_cons_neg (fun m => matcherMatches m e) m rest hm',
        ih (fun x hx => hwf x (List.mem_cons_of_mem m hx))]

/-- Without any well-formedness assumption: whenever the loop reports a
match, the result is the handler of the first matcher (in list order) whose
predicate succeeds, applied to the original error. -/
theorem handleLoop_true_inv (e : GoErr) (M : List ErrorMatcher) (r : Option GoErr)
    (h : handleLoop e M = .ok (true, r)) :
    ∃ m, M.find? (fun m => matcherMatches m e) = some m ∧ r = m.Handler (some e) := by
  induction M with
  | nil => simp [handleLoop] at h
  | cons m rest ih =>
    rcases m with ⟨et, hd, s⟩
    cases s <;> cases et <;>
      simp only [handleLoop] at h
    case mk.false.nil => exact absurd h (by simp)
    case mk.false.nonError v => exact absurd h (by simp)
    case mk.false.err w =>
      by_cases hc : (errorsAs e (typeOf w)).isSome = true
      · rw [if_pos hc] at h
        refine ⟨⟨.err w, hd, false⟩,
          find_cons_pos (fun m => matcherMatches m e) _ rest ?_, ?_⟩
        · simpa [matcherMatches] using hc
        · simpa using h.symm
      · rw [if_neg hc] at h
        obtain ⟨m', hfind, hr⟩ := ih h
        refine ⟨m', ?_, hr⟩
        rw [find_cons_neg (fun m => matcherMatches m e) _ rest
          (by simpa [matcherMatches] using hc)]
        exact hfind
    case mk.true.nil =>
      obtain ⟨m', hfind, hr⟩ := ih h
      refine ⟨m', ?_, hr⟩
      rw [find_cons_neg (fun m => matcherMatches m e) _ rest (by simp [matcherMatches])]
      exact hfind
    case mk.true.nonError v =>
      obtain ⟨m', hfind, hr⟩ := ih h
      refine ⟨m', ?_, hr⟩
      rw [find_cons_neg (fun m => matcherMatches m e) _ rest (by simp [matcherMatches])]
      exact hfind
    case mk.true.err sErr =>
      by_cases hc : errorsIs e sErr = true
      · rw [if_pos hc] at h
        refine ⟨⟨.err sErr, hd, true⟩,
          find_cons_pos (fun m => matcherMatches m e) _ rest ?_, ?_⟩
        · simpa [matcherMatches] using hc
        · simpa using h.symm
      · rw [if_neg hc] at h
        obtain ⟨m', hfind, hr⟩ := ih h
        refine ⟨m', ?_, hr⟩
        rw [find_cons_neg (fun m => matcherMatches m e) _ rest
          (by simpa [matcherMatches] using hc)]
        exact hfind

/-- The first matcher of a decomposition `pre ++ m :: post` with no match in
`pre` and a match at `m` is what `find?` returns. -/
theorem find_first_decomp (p : ErrorMatcher → Bool) (pre post : List ErrorMatcher)
    (m : ErrorMatcher) (hpre : ∀ x ∈ pre, p x = false) (hm : p m = true) :
    List.find? p (pre ++ m :: post) = some m := by
  induction pre with
  | nil => simpa using find_cons_pos p m post hm
  | cons a pre ih =>
    rw [List.cons_append, find_cons_neg p a _ (hpre a (by simp))]
    exact ih (fun x hx => hpre x (List.mem_cons_of_mem a hx))

/-- `HandleError` on a non-nil error over well-formed matchers: the first
matcher (in list order) whose predicate succeeds fires with the original
error, otherwise the original error is reported unmatched. -/
theorem HandleError_eq_find (e : GoErr) (M : List ErrorMatcher)
    (hwf : ∀ m ∈ M, wellFormed m = true) :
    HandleError (some e) M =
      match M.find? (fun m => matcherMatches m e) with
      | some m => .ok (true, m.Handler (some e))
      | none => .ok (false, some e) :=
  handleLoop_eq_find e M hwf

/-! ### The claims -/

/-- Claim C1: for a non-nil error, the first matcher in list order whose
matching predicate succeeds has its handler invoked on the original error and
`HandleError` returns `(true, handler result)` immediately; the matchers after
it are irrelevant to the result (the conclusion does not depend on `post`),
even if one of them would also match. The preceding matchers are required to
be well-formed, i.e. testable without a panic; the malformed-witness corner is
claim C4's subject. -/
theorem c1_first_match_wins (e : GoErr) (pre post : List ErrorMatcher)
    (m : ErrorMatcher)
    (hwf : ∀ x ∈ pre, wellFormed x = true)
    (hpre : ∀ x ∈ pre, matcherMatches x e = false)
    (hm : matcherMatches m e = true) :
    HandleError (some e) (pre ++ m :: post) = .ok (true, m.Handler (some e)) := by
  show handleLoop e (pre ++ m :: post) = _
  revert hwf hpre
  induction pre with
  | nil =>
    intro hwf hpre
    exact handleLoop_cons_match e m post hm
  | cons a pre ih =>
    intro hwf hpre
    rw [List.cons_append,
      handleLoop_cons_no_match e a _ (hwf a (by simp)) (hpre a (by simp))]
    exact ih (fun x hx => hwf x (List.mem_cons_of_mem a hx))
      (fun x hx => hpre x (List.mem_cons_of_mem a hx))

/-- Witness for C1: the second matcher matches and fires; the third would
also match but its handler result R2 does not appear. -/
theorem c1_first_match_wins_witness :
    HandleError (some (.sentinel 0 "root"))
      [OnSentinelError (some (.sentinel 1 "other")) (fun _ => none),
       OnSentinelError (some (.sentinel 0 "root")) (fun _ => some (.sentinel 9 "R1")),
       OnSentinelError (some (.sentinel 0 "root")) (fun _ => some (.sentinel 8 "R2"))] =
      .ok (true, some (.sentinel 9 "R1")) :=
  c1_first_match_wins (.sentinel 0 "root")
    [OnSentinelError (some (.sentinel 1 "other")) (fun _ => none)]
    [OnSentinelError (some (.sentinel 0 "root")) (fun _ => some (.sentinel 8 "R2"))]
    (OnSentinelError (some (.sentinel 0 "root")) (fun _ => some (.sentinel 9 "R1")))
    (by intro x hx; rw [List.mem_singleton] at hx; subst hx; rfl)
    (by intro x hx; rw [List.mem_singleton] at hx; subst hx; rfl)
    rfl

/-- Claim C2: when no (well-formed) matcher matches a non-nil error, the
dispatcher returns `(false, original error)` — neither nil nor replaced. -/
theorem c2_unmatched_returns_original (e : GoErr) (M : List ErrorMatcher)
    (hwf : ∀ m ∈ M, wellFormed m = true)
    (hnm : ∀ m ∈ M, matcherMatches m e = false) :
    HandleError (some e) M = .ok (false, some e) := by
  rw [HandleError_eq_find e M hwf]
  have hfind : M.find? (fun m => matcherMatches m e) = none := by
    rw [List.find?_eq_none]
    intro x hx
    simp [hnm x hx]
  rw [hfind]

/-- Witness for C2: a sentinel matcher for a different sentinel and a typed
matcher for an absent custom type; the original error comes back unchanged. -/
theorem c2_unmatched_returns_original_witness :
    HandleError (some (.sentinel 0 "x"))
      [OnSentinelError (some (.sentinel 1 "y")) (fun _ => none),
       OnCustomError 5 (fun _ => none)] =
      .ok (false, some (.sentinel 0 "x")) :=
  c2_unmatched_returns_original (.sentinel 0 "x")
    [OnSentinelError (some (.sentinel 1 "y")) (fun _ => none),
     OnCustomError 5 (fun _ => none)]
    (by
      intro x hx
      simp only [List.mem_cons, List.not_mem_nil, or_false] at hx
      rcases hx with h | h <;> subst h <;> rfl)
    (by
      intro x hx
      simp only [List.mem_cons, List.not_mem_nil, or_false] at hx
      rcases hx with h | h <;> subst h <;> rfl)

/-- Claim C3: a nil error is trivially handled: `(true, nil)` for every
matcher list, including the empty one; no matcher is tested and no handler
runs (the result does not depend on `M` at all). -/
theorem c3_nil_error_trivially_handled (M : List ErrorMatcher) :
    HandleError none M = .ok (true, none) := rfl

/-- Counterexample to C4 as stated: a TYPED-kind matcher built outside the
builders with a nil type witness is not skipped silently — dispatch panics in
`reflect.New(nil)` before ever reaching the next matcher, although that next
matcher matches (dispatching it alone succeeds). -/
theorem c4_counterexample :
    HandleError (some (.sentinel 0 "boom"))
      [{ ErrorType := .nil, Handler := fun _ => none, IsSentinel := false },
       OnSentinelError (some (.sentinel 0 "boom")) (fun _ => none)] =
      .error "reflect: New(nil)"
    ∧ HandleError (some (.sentinel 0 "boom"))
      [OnSentinelError (some (.sentinel 0 "boom")) (fun _ => none)] =
      .ok (true, none) :=
  ⟨rfl, rfl⟩

/-- Claim C4, amended: a SENTINEL-kind matcher with an invalid rule (nil or a
non-error value) never matches: the failed type assertion skips it silently
and dispatch proceeds with the remaining matchers. A TYPED-kind matcher with
an invalid witness, however, is not skipped: a nil witness panics in
`reflect.New(nil)` and a non-error witness panics inside `errors.As`. -/
theorem c4_amended_malformed_matcher (e : GoErr) (h : ErrorHandler) (v : Nat)
    (rest : List ErrorMatcher) :
    (HandleError (some e)
        ({ ErrorType := .nil, Handler := h, IsSentinel := true } :: rest) =
      HandleError (some e) rest)
    ∧ (HandleError (some e)
        ({ ErrorType := .nonError v, Handler := h, IsSentinel := true } :: rest) =
      HandleError (some e) rest)
    ∧ (HandleError (some e)
        ({ ErrorType := .nil, Handler := h, IsSentinel := false } :: rest) =
      .error "reflect: New(nil)")
    ∧ (HandleError (some e)
        ({ ErrorType := .nonError v, Handler := h, IsSentinel := false } :: rest) =
      .error "errors: *target must be interface or implement error") :=
  ⟨rfl, rfl, rfl, rfl⟩

/-- Claim C5: over well-formed matchers, `HandleErrorOrDie` panics exactly
when no matcher matches the non-nil error, and the panic message carries the
unmatched error's runtime type and string form (`Unhandled error of type %T:
%v`); when some matcher matches, it returns the first matching handler's
result normally, and on a nil error it returns nil normally. -/
theorem c5_die_spec (M : List ErrorMatcher) (e : GoErr)
    (hwf : ∀ m ∈ M, wellFormed m = true) :
    ((∃ s, HandleErrorOrDie (some e) M = .error s) ↔
        ∀ m ∈ M, matcherMatches m e = false)
    ∧ ((∀ m ∈ M, matcherMatches m e = false) →
        HandleErrorOrDie (some e) M =
          .error ("Unhandled error of type " ++ typeName e ++ ": " ++ errMsg e))
    ∧ (∀ pre mr post, M = pre ++ mr :: post →
        (∀ x ∈ pre, matcherMatches x e = false) → matcherMatches mr e = true →
        HandleErrorOrDie (some e) M = .ok (mr.Handler (some e)))
    ∧ HandleErrorOrDie none M = .ok none := by
  have hcore := HandleError_eq_find e M hwf
  rcases hfind : M.find? (fun m => matcherMatches m e) with _ | m0
  · rw [hfind] at hcore
    have hnm : ∀ m ∈ M, matcherMatches m e = false := by
      have hall := List.find?_eq_none.mp hfind
      intro x hx
      simpa using hall x hx
    have hdie : HandleErrorOrDie (some e) M =
        .error ("Unhandled error of type " ++ typeName e ++ ": " ++ errMsg e) := by
      unfold HandleErrorOrDie
      rw [hcore]
      rfl
    refine ⟨⟨fun _ => hnm, fun _ => ⟨_, hdie⟩⟩, fun _ => hdie, ?_, rfl⟩
    intro pre mr post hM hpre hmr
    exfalso
    have hsome : M.find? (fun m => matcherMatches m e) = some mr := by
      rw [hM]
      exact find_first_decomp _ pre post mr hpre hmr
    rw [hfind] at hsome
    exact Option.noConfusion hsome
  · rw [hfind] at hcore
    have hm0 : matcherMatches m0 e = true := by
      simpa using List.find?_some hfind
    have hm0mem := List.mem_of_find?_eq_some hfind
    have hdie : HandleErrorOrDie (some e) M = .ok (m0.Handler (some e)) := by
      unfold HandleErrorOrDie
      rw [hcore]
      rfl
    refine ⟨⟨?_, ?_⟩, ?_, ?_, rfl⟩
    · rintro ⟨s, hs⟩
      rw [hdie] at hs
      exact Except.noConfusion hs
    · intro hall
      exact absurd (hall m0 hm0mem) (by simp [hm0])
    · intro hall
      exact absurd (hall m0 hm0mem) (by simp [hm0])
    · intro pre mr post hM hpre hmr
      have hsome : M.find? (fun m => matcherMatches m e) = some mr := by
        rw [hM]
        exact find_first_decomp _ pre post mr hpre hmr
      rw [hfind] at hsome
      rw [hdie, Option.some.inj hsome]

/-- Witness for C5: an unmatched sentinel error makes `HandleErrorOrDie`
panic with the formatted message naming the error's type and text. -/
theorem c5_die_spec_witness :
    HandleErrorOrDie (some (.sentinel 2 "boom"))
      [OnSentinelError (some (.sentinel 1 "y")) (fun _ => none)] =
      .error "Unhandled error of type *errors.errorString: boom" :=
  (c5_die_spec [OnSentinelError (some (.sentinel 1 "y")) (fun _ => none)]
      (.sentinel 2 "boom")
      (by intro x hx; rw [List.mem_singleton] at hx; subst hx; rfl)).2.1
    (by intro x hx; rw [List.mem_singleton] at hx; subst hx; rfl)

/-- Claim C6: over well-formed matchers, when nothing matches a non-nil
error, `HandleErrorOrDefault` returns nil under a nil default handler and
`d (original error)` under default handler `d`; when some matcher matches,
it returns the first matching handler's result and the default handler is
irrelevant (the conclusion holds for every `dft`). -/
theorem c6_default_spec (M : List ErrorMatcher) (e : GoErr)
    (hwf : ∀ m ∈ M, wellFormed m = true) :
    ((∀ m ∈ M, matcherMatches m e = false) →
        HandleErrorOrDefault (some e) none M = .ok none
        ∧ ∀ d : ErrorHandler,
            HandleErrorOrDefault (some e) (some d) M = .ok (d (some e)))
    ∧ (∀ pre mr post dft, M = pre ++ mr :: post →
        (∀ x ∈ pre, matcherMatches x e = false) → matcherMatches mr e = true →
        HandleErrorOrDefault (some e) dft M = .ok (mr.Handler (some e))) := by
  have hcore := HandleError_eq_find e M hwf
  constructor
  · intro hnm
    have hfind : M.find? (fun m => matcherMatches m e) = none := by
      rw [List.find?_eq_none]
      intro x hx
      simp [hnm x hx]
    rw [hfind] at hcore
    constructor
    · unfold HandleErrorOrDefault
      rw [hcore]
      rfl
    · intro d
      unfold HandleErrorOrDefault
      rw [hcore]
      rfl
  · intro pre mr post dft hM hpre hmr
    have hfind : M.find? (fun m => matcherMatches m e) = some mr := by
      rw [hM]
      exact find_first_decomp _ pre post mr hpre hmr
    rw [hfind] at hcore
    unfold HandleErrorOrDefault
    rw [hcore]
    rfl

/-- Witness for C6: an unmatched error is routed to the supplied default
handler, whose result comes back. -/
theorem c6_default_spec_witness :
    HandleErrorOrDefault (some (.sentinel 0 "x"))
      (some (fun _ => some (.sentinel 4 "D")))
      [OnSentinelError (some (.sentinel 1 "y")) (fun _ => none)] =
      .ok (some (.sentinel 4 "D")) :=
  ((c6_default_spec [OnSentinelError (some (.sentinel 1 "y")) (fun _ => none)]
        (.sentinel 0 "x")
        (by intro x hx; rw [List.mem_singleton] at hx; subst hx; rfl)).1
      (by intro x hx; rw [List.mem_singleton] at hx; subst hx; rfl)).2
    (fun _ => some (.sentinel 4 "D"))

/-- Claim C7: sentinel matching is chain-aware: whenever the sentinel value S
occurs anywhere in the unwrap chain of `e` (including under one or more wrap
layers), the single matcher `OnSentinelError S h` matches and the handler is
invoked on the original outermost error `e`. -/
theorem c7_sentinel_chain_aware (S : GoErr) (h : ErrorHandler) (e : GoErr)
    (hmem : S ∈ chain e) :
    HandleError (some e) [OnSentinelError (some S) h] = .ok (true, h (some e)) := by
  have his : errorsIs e S = true := (errorsIs_iff_mem_chain e S).mpr hmem
  exact handleLoop_cons_match e (OnSentinelError (some S) h) []
    (by simpa [matcherMatches, OnSentinelError] using his)

/-- Witness for C7, the spec's scenario: the sentinel S wrapped twice still
matches, and the handler's fixed replacement R is returned. -/
theorem c7_sentinel_chain_aware_witness :
    HandleError (some (.wrap 1 "w2" (.wrap 2 "w1" (.sentinel 0 "S"))))
      [OnSentinelError (some (.sentinel 0 "S")) (fun _ => some (.sentinel 3 "R"))] =
      .ok (true, some (.sentinel 3 "R")) :=
  c7_sentinel_chain_aware (.sentinel 0 "S") (fun _ => some (.sentinel 3 "R"))
    (.wrap 1 "w2" (.wrap 2 "w1" (.sentinel 0 "S"))) (by decide)

/-- Claim C8: typed matching is chain-aware and type-exact. When `errors.As`
extracts a value of the custom type `tid` from the chain, the matcher built
by `OnCustomError tid h` matches and returns `(true, h t)` with `t` the
extracted chain element; extraction succeeds exactly when the chain holds an
element of that type; a chain without the type does not match and the
original error is reported unmatched; and the adapted handler returns nil
whenever its own extraction fails. -/
theorem c8_typed_chain_aware (tid : Nat) (h : GoErr → Option GoErr) (e : GoErr) :
    (∀ t, errorsAs e (.custom tid) = some t →
        HandleError (some e) [OnCustomError tid h] = .ok (true, h t))
    ∧ ((errorsAs e (.custom tid)).isSome = true ↔
        ∃ x ∈ chain e, typeOf x = .custom tid)
    ∧ (errorsAs e (.custom tid) = none →
        HandleError (some e) [OnCustomError tid h] = .ok (false, some e))
    ∧ (∀ x, errorsAs x (.custom tid) = none →
        (OnCustomError tid h).Handler (some x) = none)
    ∧ (OnCustomError tid h).Handler none = none := by
  refine ⟨?_, errorsAs_isSome_iff e (.custom tid), ?_, ?_, rfl⟩
  · intro t ht
    have hm : matcherMatches (OnCustomError tid h) e = true := by
      simp [matcherMatches, OnCustomError, typeOf, ht]
    have hfire := handleLoop_cons_match e (OnCustomError tid h) [] hm
    show handleLoop e [OnCustomError tid h] = _
    rw [hfire]
    simp [OnCustomError, ht]
  · intro hnone
    have hm : matcherMatches (OnCustomError tid h) e = false := by
      simp [matcherMatches, OnCustomError, typeOf, hnone]
    show handleLoop e [OnCustomError tid h] = _
    rw [handleLoop_cons_no_match e (OnCustomError tid h) []
      (by simp [wellFormed, OnCustomError]) hm]
    rfl
  · intro x hx
    simp [OnCustomError, hx]

/-- Witness for C8, the spec's scenario: a typed error with code 404 wrapped
once matches the typed matcher for its type, and the handler sees the typed
value, producing an error whose text embeds the code. -/
theorem c8_typed_chain_aware_witness :
    HandleError (some (.wrap 9 "w" (.typed 5 404 "code 404")))
      [OnCustomError 5 (fun t => some (.sentinel 7 (errMsg t)))] =
      .ok (true, some (.sentinel 7 "code 404")) :=
  (c8_typed_chain_aware 5 (fun t => some (.sentinel 7 (errMsg t)))
      (.wrap 9 "w" (.typed 5 404 "code 404"))).1
    (.typed 5 404 "code 404") rfl

/-- Claim C9: dispatch is deterministic — it is a pure function of its
inputs, so two runs on the same inputs agree — and whenever it reports
`matched = true` the result is the handler of the first matcher in list order
whose predicate succeeds, applied to the original error (no randomness, no
hidden state; this inversion needs no well-formedness assumption). -/
theorem c9_deterministic_first_match (e : GoErr) (M : List ErrorMatcher) :
    HandleError (some e) M = HandleError (some e) M
    ∧ ∀ r, HandleError (some e) M = .ok (true, r) →
        ∃ m, M.find? (fun m => matcherMatches m e) = some m
          ∧ r = m.Handler (some e) :=
  ⟨rfl, fun r hr => handleLoop_true_inv e M r hr⟩

/-- Witness for C9: on a concrete matched dispatch, the reported result is
the first matching matcher's handler output. -/
theorem c9_deterministic_first_match_witness :
    ([OnSentinelError (some (.sentinel 0 "s")) (fun _ => some (.sentinel 1 "r"))].find?
        (fun m => matcherMatches m (.sentinel 0 "s")) =
      some (OnSentinelError (some (.sentinel 0 "s")) (fun _ => some (.sentinel 1 "r"))))
    ∧ (some (.sentinel 1 "r") : Option GoErr) =
      (OnSentinelError (some (.sentinel 0 "s"))
        (fun _ => some (.sentinel 1 "r"))).Handler (some (.sentinel 0 "s")) := by
  obtain ⟨m, hfind, hr⟩ := (c9_deterministic_first_match (.sentinel 0 "s")
      [OnSentinelError (some (.sentinel 0 "s")) (fun _ => some (.sentinel 1 "r"))]).2
    (some (.sentinel 1 "r")) rfl
  have hm1 : [OnSentinelError (some (.sentinel 0 "s"))
      (fun _ => some (.sentinel 1 "r"))].find?
      (fun m => matcherMatches m (.sentinel 0 "s")) =
      some (OnSentinelError (some (.sentinel 0 "s")) (fun _ => some (.sentinel 1 "r"))) :=
    find_cons_pos (fun m => matcherMatches m (.sentinel 0 "s")) _ [] rfl
  have hmeq : OnSentinelError (some (.sentinel 0 "s"))
      (fun _ => some (.sentinel 1 "r")) = m := by
    rw [hm1] at hfind
    exact Option.some.inj hfind
  exact ⟨hm1, by rw [hmeq]; exact hr⟩

/-- Claim C10: the non-deprecated names are definitional aliases of the
deprecated entry points — `Handle`, `MustHandle` and `HandleOr` are the very
same functions as `HandleError`, `HandleErrorOrDie` and
`HandleErrorOrDefault`, so they agree on all inputs. -/
theorem c10_aliases (e : Option GoErr) (dft : Option ErrorHandler)
    (M : List ErrorMatcher) :
    Handle e M = HandleError e M
    ∧ MustHandle e M = HandleErrorOrDie e M
    ∧ HandleOr e dft M = HandleErrorOrDefault e dft M :=
  ⟨rfl, rfl, rfl⟩

end GoUtils
